import Mathlib

/-!
# buildkite-generator: the `create` command

A shallow embedding of `main.go`.  The program is sequential glue around two
remote APIs (Buildkite, GitHub), the YAML encoder and the local file system.
Every call that leaves `main.go` is appended to a log kept in the `World`, and
its answer is supplied by an `Env`, which may look at the whole world (the log
of earlier calls included) before answering.  Functions of `main.go` therefore
become state-passing functions `World → result × World`.
-/

namespace BuildkiteGenerator

/-! ## Go values -/

/-- Go byte slice, one number per byte. -/
abbrev Bytes := List Nat

/-- An error value allocated inside a library (go-buildkite, go-github, yaml,
os); the program only ever sees its message. -/
structure LibError where
  msg : String
  deriving DecidableEq, Repr

/-- Go error values that can reach `main.go`: an error handed back by a
library, an error built by `fmt.Errorf` with a constant text, and an error built
by `fmt.Errorf` with a text that ends in the `%w` verb.  The three kinds are
distinct values even when their messages coincide. -/
inductive GoError where
  | external (e : LibError)
  | errorf (msg : String)
  | wrapf (pre : String) (cause : GoError)
  deriving DecidableEq, Repr

/-- Method `Error()`: the message of an error. -/
def GoError.Error : GoError → String
  | .external e => e.msg
  | .errorf msg => msg
  | .wrapf pre cause => pre ++ cause.Error

/-- Function `errors.Unwrap`: the wrapped cause, when there is one. -/
def GoError.Unwrap : GoError → Option GoError
  | .wrapf _ cause => some cause
  | _ => none

/-- How a function of `main.go` with result type `error` ends: it returns
`nil`, it returns a non-nil error, or the goroutine panics. -/
inductive Ret where
  | nil
  | err (e : GoError)
  | panic (msg : String)
  deriving DecidableEq, Repr

/-- The `error` result of a library call, seen as a `Ret`. -/
def Ret.ofError : Option LibError → Ret
  | none => .nil
  | some e => .err (.external e)

/-- Text of the run-time panic raised by a field access through a nil pointer. -/
def nilDereference : String :=
  "runtime error: invalid memory address or nil pointer dereference"

/-! ## Library types used by `main.go` (the fields the program touches) -/

/-- Type `bk.Step`. -/
structure bk.Step where
  Type_ : Option String
  Name : Option String
  Command : Option String
  deriving DecidableEq, Repr

/-- Type `bk.GitHubSettings`. -/
structure bk.GitHubSettings where
  TriggerMode : Option String
  BuildPullRequests : Option Bool
  SkipPullRequestBuildsForExistingCommits : Option Bool
  PublishCommitStatus : Option Bool
  Repository : Option String
  deriving DecidableEq, Repr

/-- Type `bk.CreatePipeline`, the body of a pipeline-creation request. -/
structure bk.CreatePipeline where
  Name : String
  Repository : String
  Steps : List bk.Step
  DefaultBranch : String
  Description : String
  ProviderSettings : Option bk.GitHubSettings
  CancelRunningBranchBuilds : Bool
  CancelRunningBranchBuildsFilter : String
  deriving DecidableEq, Repr

/-- Type `bk.Client`, identified by the token it was configured with. -/
structure bk.Client where
  apiToken : String
  deriving DecidableEq, Repr

/-- Type `gh.RequiredStatusChecks`. -/
structure gh.RequiredStatusChecks where
  Strict : Bool
  Contexts : List String
  deriving DecidableEq, Repr

/-- Type `gh.Protection`: the section `RequiredStatusChecks` is a pointer and is
nil when the branch is protected without required status checks. -/
structure gh.Protection where
  RequiredStatusChecks : Option gh.RequiredStatusChecks
  deriving DecidableEq, Repr

/-- Type `gh.ProtectionRequest`; every field `main.go` does not set is nil. -/
structure gh.ProtectionRequest where
  RequiredStatusChecks : Option gh.RequiredStatusChecks
  deriving DecidableEq, Repr

/-- Type `gh.Client`, identified by the access token of its transport. -/
structure gh.Client where
  accessToken : String
  deriving DecidableEq, Repr

/-- Type `cli.Context`: the positional arguments and the string flags. -/
structure cli.Context where
  args : List String
  flags : String → String

/-- Method `c.Args().Get(n)`: the n-th positional argument, or the empty string
when there are not that many. -/
def cli.Context.ArgsGet (c : cli.Context) (n : Nat) : String :=
  c.args.getD n ""

/-- Method `c.String(name)`: the value of a string flag. -/
def cli.Context.String (c : cli.Context) (name : String) : String :=
  c.flags name

/-! ## Types declared in `main.go` -/

/-- Constant `org`. -/
def org : String := "bluecore-inc"

/-- Constant `gitOrg`. -/
def gitOrg : String := "TriggerMail"

/-- Type `PipelineStep`. -/
structure PipelineStep where
  Command : String
  Label : String
  deriving DecidableEq, Repr

/-- Type `Pipeline`, the document of the template file. -/
structure Pipeline where
  Name : String
  Description : String
  Steps : List PipelineStep
  deriving DecidableEq, Repr

/-- Type `Client`. -/
structure Client where
  buildkite : bk.Client
  github : gh.Client
  deriving DecidableEq, Repr

/-- Function `pbool`. -/
def pbool (b : Bool) : Option Bool := some b

/-- Function `pstring`. -/
def pstring (s : String) : Option String := some s

/-! ## The world outside the program -/

/-- One call that leaves `main.go`. -/
inductive Call where
  | NewTokenConfig (apiToken : String) (debug : Bool)
  | Oauth2NewClient (accessToken : String)
  | BkNewClient (apiToken : String)
  | GhNewClient (accessToken : String)
  | PipelinesCreate (org : String) (p : bk.CreatePipeline)
  | PipelinesAddWebhook (org : String) (slug : String)
  | GetBranchProtection (owner : String) (repo : String) (branch : String)
  | UpdateBranchProtection (owner : String) (repo : String) (branch : String)
      (preq : gh.ProtectionRequest)
  | Marshal (doc : Pipeline)
  | MkdirAll (path : String) (perm : Nat)
  | Println (line : String)
  | WriteFile (filename : String) (data : Bytes) (perm : Nat)
  deriving DecidableEq, Repr

/-- State of the world: the content of every regular file, by path, and the
calls made so far, oldest first. -/
structure World where
  files : String → Option Bytes
  log : List Call

/-- Record a call. -/
def World.record (w : World) (call : Call) : World :=
  { w with log := w.log ++ [call] }

/-- Answer of `ioutil.WriteFile`.  On failure the library may have truncated
the file or written part of the data, so the content left behind is part of
the answer. -/
inductive WriteAnswer where
  | done
  | failed (e : LibError) (left : Option Bytes)

/-- The collaborators.  Each remote or file-system operation answers from the
world at the moment of the call; `yaml.Marshal` is a function of its argument
alone. -/
structure Env where
  NewTokenConfig : World → String → Bool → Option LibError
  PipelinesCreate : World → bk.Client → String → bk.CreatePipeline → Option LibError
  PipelinesAddWebhook : World → bk.Client → String → String → Option LibError
  GetBranchProtection : World → gh.Client → String → String → String →
    Except LibError gh.Protection
  UpdateBranchProtection : World → gh.Client → String → String → String →
    gh.ProtectionRequest → Option LibError
  Marshal : Pipeline → Except LibError Bytes
  MkdirAll : World → String → Nat → Option LibError
  WriteFile : World → String → Bytes → Nat → WriteAnswer

/-- Effect of `ioutil.WriteFile(filename, data, perm)` on the files: the file
is created or truncated and then holds exactly `data`; a failed call leaves
what the answer says. -/
def World.writeFile (w : World) (filename : String) (content : Option Bytes) : World :=
  { w with files := fun path => if path = filename then content else w.files path }

/-! ## The functions of `main.go` -/

/-- Function `New`: build the two API clients from the flags. -/
def New (env : Env) (c : cli.Context) (w : World) : Except GoError Client × World :=
  let w1 := w.record (.NewTokenConfig (c.String "token") false)
  match env.NewTokenConfig w (c.String "token") false with
  | some e => (.error (.external e), w1)
  | none =>
    let w2 := w1.record (.Oauth2NewClient (c.String "github-token"))
    let w3 := w2.record (.BkNewClient (c.String "token"))
    let w4 := w3.record (.GhNewClient (c.String "github-token"))
    (.ok { buildkite := { apiToken := c.String "token" },
           github := { accessToken := c.String "github-token" } }, w4)

/-- The value bound to the local `pl` of `Client.CreatePipeline`. -/
def CreatePipeline.pl (name : String) : bk.CreatePipeline :=
  { Name := name
    Repository := "git@github.com:TriggerMail/" ++ name ++ ".git"
    Steps := [{ Type_ := pstring "script"
                Name := pstring ":pipeline:"
                Command := pstring "buildkite-agent pipeline upload" }]
    DefaultBranch := "master"
    Description := "pipeline for " ++ name
    ProviderSettings := some
      { TriggerMode := pstring "code"
        BuildPullRequests := pbool true
        SkipPullRequestBuildsForExistingCommits := pbool true
        PublishCommitStatus := pbool true
        Repository := pstring ("TriggerMail/" ++ name) }
    CancelRunningBranchBuilds := true
    CancelRunningBranchBuildsFilter := "!master" }

/-- Method `Client.CreatePipeline`. -/
def CreatePipeline (env : Env) (b : Client) (name : String) (w : World) : Ret × World :=
  let pl := CreatePipeline.pl name
  let w1 := w.record (.PipelinesCreate org pl)
  match env.PipelinesCreate w b.buildkite org pl with
  | some e => (.err (.wrapf "could not create pipeline: " (.external e)), w1)
  | none =>
    let w2 := w1.record (.PipelinesAddWebhook org name)
    (Ret.ofError (env.PipelinesAddWebhook w1 b.buildkite org name), w2)

/-- Method `Client.CreateBranchProtections`. -/
def CreateBranchProtections (env : Env) (b : Client) (name : String) (w : World) :
    Ret × World :=
  let w1 := w.record (.GetBranchProtection gitOrg name "master")
  match env.GetBranchProtection w b.github gitOrg name "master" with
  | .error e => (.err (.wrapf "could not retrieve branch protection from github: " (.external e)), w1)
  | .ok p =>
    match p.RequiredStatusChecks with
    | none => (.panic nilDereference, w1)
    | some checks =>
      let c := checks.Contexts ++ ["buildkite/" ++ name]
      let preq : gh.ProtectionRequest :=
        { RequiredStatusChecks := some { Strict := false, Contexts := c } }
      let w2 := w1.record (.UpdateBranchProtection gitOrg name "master" preq)
      (Ret.ofError (env.UpdateBranchProtection w1 b.github gitOrg name "master" preq), w2)

/-- The `Pipeline` literal that `Client.InitPipelineFile` passes to
`yaml.Marshal`. -/
def InitPipelineFile.document (name : String) : Pipeline :=
  { Name := name
    Description := name ++ " build pipeline"
    Steps := [{ Command := "buildkite-agent pipeline upload", Label := ":pipeline:" }] }

/-- Method `Client.InitPipelineFile`. -/
def InitPipelineFile (env : Env) (_b : Client) (name : String) (w : World) : Ret × World :=
  let doc := InitPipelineFile.document name
  let w1 := w.record (.Marshal doc)
  match env.Marshal doc with
  | .error e => (.err (.external e), w1)
  | .ok file =>
    let w2 := w1.record (.MkdirAll ".buildkite" 0o755)
    match env.MkdirAll w1 ".buildkite" 0o755 with
    | some e => (.err (.wrapf "could not create directory for template file: " (.external e)), w2)
    | none =>
      let w3 := w2.record (.Println "reminder: create a PR with the template.yaml to the repository!")
      let w4 := w3.record (.WriteFile ".buildkite/template.yaml" file 0o755)
      match env.WriteFile w3 ".buildkite/template.yaml" file 0o755 with
      | .done => (.nil, w4.writeFile ".buildkite/template.yaml" (some file))
      | .failed e left => (.err (.external e), w4.writeFile ".buildkite/template.yaml" left)

/-- Function `createAction`, the action of the `create` command. -/
def createAction (env : Env) (c : cli.Context) (w : World) : Ret × World :=
  let name := c.ArgsGet 0
  if name = "" then
    (.err (.errorf "could not find project name"), w)
  else
    match New env c w with
    | (.error e, w1) => (.err e, w1)
    | (.ok client, w1) =>
      match CreatePipeline env client name w1 with
      | (.nil, w2) =>
        match CreateBranchProtections env client name w2 with
        | (.nil, w3) => InitPipelineFile env client name w3
        | (r, w3) => (r, w3)
      | (r, w2) => (r, w2)

/-! ## Observing the log -/

/-- The world in which `InitPipelineFile` calls `os.MkdirAll`. -/
def atMkdir (n : String) (w : World) : World :=
  w.record (.Marshal (InitPipelineFile.document n))

/-- The world in which `InitPipelineFile` calls `ioutil.WriteFile`. -/
def atWrite (n : String) (w : World) : World :=
  ((atMkdir n w).record (.MkdirAll ".buildkite" 0o755)).record
    (.Println "reminder: create a PR with the template.yaml to the repository!")


/-- A call made by the pipeline-registration step. -/
def Call.ofPipeline : Call → Bool
  | .PipelinesCreate _ _ => true
  | .PipelinesAddWebhook _ _ => true
  | _ => false

/-- A call made by the branch-protection step. -/
def Call.ofProtection : Call → Bool
  | .GetBranchProtection _ _ _ => true
  | .UpdateBranchProtection _ _ _ _ => true
  | _ => false

/-- A call made by the template-writing step. -/
def Call.ofTemplate : Call → Bool
  | .Marshal _ => true
  | .MkdirAll _ _ => true
  | .Println _ => true
  | .WriteFile _ _ _ => true
  | _ => false

/-- An update of a branch-protection record. -/
def Call.isUpdate : Call → Bool
  | .UpdateBranchProtection _ _ _ _ => true
  | _ => false

/-! ## Concrete worlds and collaborators, used to run the program -/

/-- A world with no file and no call made yet. -/
def World.empty : World :=
  { files := fun _ => none, log := [] }

/-- A world whose template file already holds three bytes. -/
def staleWorld : World :=
  { files := fun path => if path = ".buildkite/template.yaml" then some [1, 2, 3] else none
    log := [] }

/-- A stand-in for the YAML encoder: the bytes of a one-line rendering. -/
def sampleMarshal (doc : Pipeline) : Bytes :=
  ("name: " ++ doc.Name ++ ", description: " ++ doc.Description).toList.map Char.toNat

/-- Collaborators that accept every call, refuse only an empty Buildkite token,
and answer the branch-protection fetch with `fetched`. -/
def sampleEnv (fetched : Except LibError gh.Protection) : Env :=
  { NewTokenConfig := fun _ token _ =>
      if token = "" then some { msg := "Invalid token, empty string supplied" } else none
    PipelinesCreate := fun _ _ _ _ => none
    PipelinesAddWebhook := fun _ _ _ _ => none
    GetBranchProtection := fun _ _ _ _ _ => fetched
    UpdateBranchProtection := fun _ _ _ _ _ _ => none
    Marshal := fun doc => .ok (sampleMarshal doc)
    MkdirAll := fun _ _ _ => none
    WriteFile := fun _ _ _ _ => .done }

/-- A protection record whose required contexts are `cs`. -/
def protectionWith (cs : List String) : gh.Protection :=
  { RequiredStatusChecks := some { Strict := false, Contexts := cs } }

/-- A command line: the positional arguments and the two tokens. -/
def sampleContext (args : List String) (token githubToken : String) : cli.Context :=
  { args := args
    flags := fun name =>
      if name = "token" then token else if name = "github-token" then githubToken else "" }

/-- A client holding the two tokens. -/
def sampleClient : Client :=
  { buildkite := { apiToken := "bk-token" }, github := { accessToken := "gh-token" } }


/-! ## How each function runs, by the answers it receives -/

theorem CreatePipeline_create_failed {env : Env} {b : Client} {n : String} {w : World}
    {e : LibError} (h : env.PipelinesCreate w b.buildkite org (CreatePipeline.pl n) = some e) :
    CreatePipeline env b n w =
      (.err (.wrapf "could not create pipeline: " (.external e)),
        w.record (.PipelinesCreate org (CreatePipeline.pl n))) := by
  simp only [CreatePipeline, h]

theorem CreatePipeline_create_done {env : Env} {b : Client} {n : String} {w : World}
    (h : env.PipelinesCreate w b.buildkite org (CreatePipeline.pl n) = none) :
    CreatePipeline env b n w =
      (Ret.ofError (env.PipelinesAddWebhook (w.record (.PipelinesCreate org (CreatePipeline.pl n)))
          b.buildkite org n),
        (w.record (.PipelinesCreate org (CreatePipeline.pl n))).record
          (.PipelinesAddWebhook org n)) := by
  simp only [CreatePipeline, h]

theorem CreateBranchProtections_fetch_failed {env : Env} {b : Client} {n : String} {w : World}
    {e : LibError} (h : env.GetBranchProtection w b.github gitOrg n "master" = .error e) :
    CreateBranchProtections env b n w =
      (.err (.wrapf "could not retrieve branch protection from github: " (.external e)),
        w.record (.GetBranchProtection gitOrg n "master")) := by
  simp only [CreateBranchProtections, h]

theorem CreateBranchProtections_no_section {env : Env} {b : Client} {n : String} {w : World}
    {p : gh.Protection} (h : env.GetBranchProtection w b.github gitOrg n "master" = .ok p)
    (hp : p.RequiredStatusChecks = none) :
    CreateBranchProtections env b n w =
      (.panic nilDereference, w.record (.GetBranchProtection gitOrg n "master")) := by
  simp only [CreateBranchProtections, h, hp]

theorem CreateBranchProtections_section {env : Env} {b : Client} {n : String} {w : World}
    {p : gh.Protection} {checks : gh.RequiredStatusChecks}
    (h : env.GetBranchProtection w b.github gitOrg n "master" = .ok p)
    (hp : p.RequiredStatusChecks = some checks) :
    CreateBranchProtections env b n w =
      (Ret.ofError (env.UpdateBranchProtection (w.record (.GetBranchProtection gitOrg n "master"))
          b.github gitOrg n "master"
          { RequiredStatusChecks :=
              some { Strict := false, Contexts := checks.Contexts ++ ["buildkite/" ++ n] } }),
        (w.record (.GetBranchProtection gitOrg n "master")).record
          (.UpdateBranchProtection gitOrg n "master"
            { RequiredStatusChecks :=
                some { Strict := false, Contexts := checks.Contexts ++ ["buildkite/" ++ n] } })) := by
  simp only [CreateBranchProtections, h, hp]

theorem InitPipelineFile_marshal_failed {env : Env} {b : Client} {n : String} {w : World}
    {e : LibError} (h : env.Marshal (InitPipelineFile.document n) = .error e) :
    InitPipelineFile env b n w = (.err (.external e), atMkdir n w) := by
  simp only [InitPipelineFile, h, atMkdir]

theorem InitPipelineFile_mkdir_failed {env : Env} {b : Client} {n : String} {w : World}
    {file : Bytes} {e : LibError} (h : env.Marshal (InitPipelineFile.document n) = .ok file)
    (hd : env.MkdirAll (atMkdir n w) ".buildkite" 0o755 = some e) :
    InitPipelineFile env b n w =
      (.err (.wrapf "could not create directory for template file: " (.external e)),
        (atMkdir n w).record (.MkdirAll ".buildkite" 0o755)) := by
  simp only [atMkdir] at hd
  simp only [InitPipelineFile, h, hd, atMkdir]

theorem InitPipelineFile_write_done {env : Env} {b : Client} {n : String} {w : World}
    {file : Bytes} (h : env.Marshal (InitPipelineFile.document n) = .ok file)
    (hd : env.MkdirAll (atMkdir n w) ".buildkite" 0o755 = none)
    (hw : env.WriteFile (atWrite n w) ".buildkite/template.yaml" file 0o755 = .done) :
    InitPipelineFile env b n w =
      (.nil, ((atWrite n w).record (.WriteFile ".buildkite/template.yaml" file 0o755)).writeFile
        ".buildkite/template.yaml" (some file)) := by
  simp only [atMkdir, atWrite] at hd hw
  simp only [InitPipelineFile, h, hd, hw, atMkdir, atWrite]

theorem InitPipelineFile_write_failed {env : Env} {b : Client} {n : String} {w : World}
    {file : Bytes} {e : LibError} {left : Option Bytes}
    (h : env.Marshal (InitPipelineFile.document n) = .ok file)
    (hd : env.MkdirAll (atMkdir n w) ".buildkite" 0o755 = none)
    (hw : env.WriteFile (atWrite n w) ".buildkite/template.yaml" file 0o755 = .failed e left) :
    InitPipelineFile env b n w =
      (.err (.external e),
        ((atWrite n w).record (.WriteFile ".buildkite/template.yaml" file 0o755)).writeFile
          ".buildkite/template.yaml" left) := by
  simp only [atMkdir, atWrite] at hd hw
  simp only [InitPipelineFile, h, hd, hw, atMkdir, atWrite]

/-! ## Pipeline registration -/

/-- C5.  For every project name n (empty or not), the request that
CreatePipeline hands to the pipeline-creation call has name n, repository URL
"git@github.com:TriggerMail/" ++ n ++ ".git" and provider-settings repository
"TriggerMail/" ++ n; hence the URL is "git@github.com:" followed by the
provider-settings repository followed by ".git". -/
theorem CreatePipeline_request_fields (env : Env) (b : Client) (n : String) (w : World) :
    ∃ (pl : bk.CreatePipeline) (settings : bk.GitHubSettings) (repo : String)
        (later : List Call),
      (CreatePipeline env b n w).2.log = w.log ++ Call.PipelinesCreate org pl :: later ∧
      pl.Name = n ∧
      pl.Repository = "git@github.com:TriggerMail/" ++ n ++ ".git" ∧
      pl.ProviderSettings = some settings ∧
      settings.Repository = some repo ∧
      repo = "TriggerMail/" ++ n ∧
      pl.Repository = "git@github.com:" ++ repo ++ ".git" := by
  have hurl : "git@github.com:TriggerMail/" ++ n ++ ".git"
      = "git@github.com:" ++ ("TriggerMail/" ++ n) ++ ".git" := by
    rw [← String.append_assoc]
    rfl
  rcases h : env.PipelinesCreate w b.buildkite org (CreatePipeline.pl n) with _ | e
  · exact ⟨CreatePipeline.pl n, _, "TriggerMail/" ++ n, [Call.PipelinesAddWebhook org n],
      by simp [CreatePipeline_create_done h, World.record], rfl, rfl, rfl, rfl, rfl, hurl⟩
  · exact ⟨CreatePipeline.pl n, _, "TriggerMail/" ++ n, [],
      by simp [CreatePipeline_create_failed h, World.record], rfl, rfl, rfl, rfl, rfl, hurl⟩

/-- C6.  For every project name n: when the pipeline-creation call fails with
cause e, CreatePipeline returns an error whose message is "could not create
pipeline: " followed by the message of e and which unwraps to e, and no webhook
call is made; when the creation call succeeds, exactly one webhook call is made,
for organisation "bluecore-inc" and pipeline n, and CreatePipeline returns the
result of that call as it is. -/
theorem CreatePipeline_error_handling (env : Env) (b : Client) (n : String) (w : World) :
    (∀ e, env.PipelinesCreate w b.buildkite "bluecore-inc" (CreatePipeline.pl n) = some e →
      (∃ err, (CreatePipeline env b n w).1 = .err err ∧
        err.Error = "could not create pipeline: " ++ e.msg ∧
        err.Unwrap = some (.external e)) ∧
      (CreatePipeline env b n w).2.log =
        w.log ++ [Call.PipelinesCreate "bluecore-inc" (CreatePipeline.pl n)]) ∧
    (env.PipelinesCreate w b.buildkite "bluecore-inc" (CreatePipeline.pl n) = none →
      (CreatePipeline env b n w).2.log =
        w.log ++ [Call.PipelinesCreate "bluecore-inc" (CreatePipeline.pl n),
          Call.PipelinesAddWebhook "bluecore-inc" n] ∧
      (CreatePipeline env b n w).1 =
        Ret.ofError (env.PipelinesAddWebhook
          (w.record (.PipelinesCreate "bluecore-inc" (CreatePipeline.pl n)))
          b.buildkite "bluecore-inc" n)) := by
  refine ⟨?_, ?_⟩
  · intro e he
    rw [CreatePipeline_create_failed he]
    exact ⟨⟨_, rfl, rfl, rfl⟩, rfl⟩
  · intro he
    rw [CreatePipeline_create_done he]
    exact ⟨by simp [World.record, org], rfl⟩

/-- C6 at a concrete input: a creation call refused with "422 name taken", and a
creation call accepted followed by a webhook call refused with "503". -/
theorem CreatePipeline_error_handling_witness :
    ((∃ err, (CreatePipeline
          { sampleEnv (.ok (protectionWith [])) with
            PipelinesCreate := fun _ _ _ _ => some { msg := "422 name taken" } }
          sampleClient "foo" World.empty).1 = .err err ∧
        err.Error = "could not create pipeline: " ++ "422 name taken" ∧
        err.Unwrap = some (.external { msg := "422 name taken" })) ∧
      (CreatePipeline
          { sampleEnv (.ok (protectionWith [])) with
            PipelinesCreate := fun _ _ _ _ => some { msg := "422 name taken" } }
          sampleClient "foo" World.empty).2.log =
        World.empty.log ++ [Call.PipelinesCreate "bluecore-inc" (CreatePipeline.pl "foo")]) ∧
    ((CreatePipeline
          { sampleEnv (.ok (protectionWith [])) with
            PipelinesAddWebhook := fun _ _ _ _ => some { msg := "503" } }
          sampleClient "foo" World.empty).2.log =
        World.empty.log ++ [Call.PipelinesCreate "bluecore-inc" (CreatePipeline.pl "foo"),
          Call.PipelinesAddWebhook "bluecore-inc" "foo"] ∧
      (CreatePipeline
          { sampleEnv (.ok (protectionWith [])) with
            PipelinesAddWebhook := fun _ _ _ _ => some { msg := "503" } }
          sampleClient "foo" World.empty).1 = Ret.ofError (some { msg := "503" })) :=
  ⟨(CreatePipeline_error_handling
      { sampleEnv (.ok (protectionWith [])) with
        PipelinesCreate := fun _ _ _ _ => some { msg := "422 name taken" } }
      sampleClient "foo" World.empty).1 { msg := "422 name taken" } rfl,
   (CreatePipeline_error_handling
      { sampleEnv (.ok (protectionWith [])) with
        PipelinesAddWebhook := fun _ _ _ _ => some { msg := "503" } }
      sampleClient "foo" World.empty).2 rfl⟩

/-! ## Branch protection -/

/-- C2.  For every project name n, when the fetch returns a protection record
whose required contexts are cs, CreateBranchProtections makes exactly the fetch
and then one update whose contexts are cs ++ ["buildkite/" ++ n]. -/
theorem CreateBranchProtections_appends_context (env : Env) (b : Client) (n : String)
    (w : World) (p : gh.Protection) (checks : gh.RequiredStatusChecks)
    (hfetch : env.GetBranchProtection w b.github gitOrg n "master" = .ok p)
    (hsection : p.RequiredStatusChecks = some checks) :
    (CreateBranchProtections env b n w).2.log =
      w.log ++ [Call.GetBranchProtection "TriggerMail" n "master",
        Call.UpdateBranchProtection "TriggerMail" n "master"
          { RequiredStatusChecks :=
              some { Strict := false, Contexts := checks.Contexts ++ ["buildkite/" ++ n] } }] := by
  rw [CreateBranchProtections_section hfetch hsection]
  simp [World.record, gitOrg]

/-- C3.  For every project name n, when the branch-protection fetch fails with
cause e, CreateBranchProtections makes no call besides the fetch (so no update
and no record created from scratch) and returns an error that unwraps to e and
whose message starts with "could not retrieve branch protection". -/
theorem CreateBranchProtections_fetch_failure (env : Env) (b : Client) (n : String)
    (w : World) (e : LibError)
    (hfetch : env.GetBranchProtection w b.github gitOrg n "master" = .error e) :
    (CreateBranchProtections env b n w).2.log =
        w.log ++ [Call.GetBranchProtection "TriggerMail" n "master"] ∧
      (∀ call ∈ (CreateBranchProtections env b n w).2.log,
        call.isUpdate = true → call ∈ w.log) ∧
      ∃ err, (CreateBranchProtections env b n w).1 = .err err ∧
        err.Unwrap = some (.external e) ∧
        err.Error = "could not retrieve branch protection" ++ (" from github: " ++ e.msg) := by
  rw [CreateBranchProtections_fetch_failed hfetch]
  refine ⟨by simp [World.record, gitOrg], ?_, _, rfl, rfl, ?_⟩
  · intro call hcall hupd
    simp only [World.record, List.mem_append, List.mem_singleton] at hcall
    rcases hcall with h | h
    · exact h
    · subst h
      simp [Call.isUpdate] at hupd
  · show "could not retrieve branch protection from github: " ++ e.msg = _
    rw [← String.append_assoc]
    rfl

/-! ## Template file -/

/-- C7.  For every project name n, the first thing InitPipelineFile does is to
hand the YAML encoder a document with name n, description n ++ " build pipeline"
and a steps list of exactly one entry, with command "buildkite-agent pipeline
upload" and label ":pipeline:"; whatever it later writes is the encoding of that
document, written to ".buildkite/template.yaml". -/
theorem InitPipelineFile_document (env : Env) (b : Client) (n : String) (w : World) :
    ∃ (doc : Pipeline) (later : List Call),
      (InitPipelineFile env b n w).2.log = w.log ++ Call.Marshal doc :: later ∧
      doc.Name = n ∧
      doc.Description = n ++ " build pipeline" ∧
      doc.Steps = [{ Command := "buildkite-agent pipeline upload", Label := ":pipeline:" }] ∧
      ∀ filename data perm, Call.WriteFile filename data perm ∈ later →
        filename = ".buildkite/template.yaml" ∧ env.Marshal doc = .ok data := by
  rcases hm : env.Marshal (InitPipelineFile.document n) with e | file
  · exact ⟨InitPipelineFile.document n, [],
      by simp [InitPipelineFile_marshal_failed hm, atMkdir, World.record], rfl, rfl, rfl, by simp⟩
  · rcases hd : env.MkdirAll (atMkdir n w) ".buildkite" 0o755 with _ | e
    · rcases hw : env.WriteFile (atWrite n w) ".buildkite/template.yaml" file 0o755 with _ | ⟨e, left⟩
      · refine ⟨InitPipelineFile.document n, [Call.MkdirAll ".buildkite" 0o755,
          Call.Println "reminder: create a PR with the template.yaml to the repository!",
          Call.WriteFile ".buildkite/template.yaml" file 0o755], ?_, rfl, rfl, rfl, ?_⟩
        · simp [InitPipelineFile_write_done hm hd hw, atMkdir, atWrite, World.record,
            World.writeFile]
        · intro filename data perm hmem
          simp at hmem
          exact ⟨hmem.1, by rw [hm, hmem.2.1]⟩
      · refine ⟨InitPipelineFile.document n, [Call.MkdirAll ".buildkite" 0o755,
          Call.Println "reminder: create a PR with the template.yaml to the repository!",
          Call.WriteFile ".buildkite/template.yaml" file 0o755], ?_, rfl, rfl, rfl, ?_⟩
        · simp [InitPipelineFile_write_failed hm hd hw, atMkdir, atWrite, World.record,
            World.writeFile]
        · intro filename data perm hmem
          simp at hmem
          exact ⟨hmem.1, by rw [hm, hmem.2.1]⟩
    · exact ⟨InitPipelineFile.document n, [Call.MkdirAll ".buildkite" 0o755],
        by simp [InitPipelineFile_mkdir_failed hm hd, atMkdir, World.record], rfl, rfl, rfl,
        by simp⟩

/-! ## What each step adds to the log, and which errors it can return -/

theorem CreatePipeline_calls (env : Env) (b : Client) (n : String) (w : World) :
    ∃ l : List Call, l ≠ [] ∧ (∀ x ∈ l, x.ofPipeline = true) ∧
      (CreatePipeline env b n w).2.log = w.log ++ l := by
  rcases h : env.PipelinesCreate w b.buildkite org (CreatePipeline.pl n) with _ | e
  · refine ⟨[.PipelinesCreate org (CreatePipeline.pl n), .PipelinesAddWebhook org n],
      by simp, ?_, by simp [CreatePipeline_create_done h, World.record]⟩
    intro x hx
    simp at hx
    rcases hx with rfl | rfl <;> rfl
  · refine ⟨[.PipelinesCreate org (CreatePipeline.pl n)],
      by simp, ?_, by simp [CreatePipeline_create_failed h, World.record]⟩
    intro x hx
    simp at hx
    subst hx
    rfl

theorem CreateBranchProtections_calls (env : Env) (b : Client) (n : String) (w : World) :
    ∃ l : List Call, l ≠ [] ∧ (∀ x ∈ l, x.ofProtection = true) ∧
      (CreateBranchProtections env b n w).2.log = w.log ++ l := by
  rcases h : env.GetBranchProtection w b.github gitOrg n "master" with e | p
  · refine ⟨[.GetBranchProtection gitOrg n "master"],
      by simp, ?_, by simp [CreateBranchProtections_fetch_failed h, World.record]⟩
    intro x hx
    simp at hx
    subst hx
    rfl
  · rcases hp : p.RequiredStatusChecks with _ | checks
    · refine ⟨[.GetBranchProtection gitOrg n "master"],
        by simp, ?_, by simp [CreateBranchProtections_no_section h hp, World.record]⟩
      intro x hx
      simp at hx
      subst hx
      rfl
    · refine ⟨[.GetBranchProtection gitOrg n "master", .UpdateBranchProtection gitOrg n "master"
          { RequiredStatusChecks :=
              some { Strict := false, Contexts := checks.Contexts ++ ["buildkite/" ++ n] } }],
        by simp, ?_, by simp [CreateBranchProtections_section h hp, World.record]⟩
      intro x hx
      simp at hx
      rcases hx with rfl | rfl <;> rfl

theorem InitPipelineFile_calls (env : Env) (b : Client) (n : String) (w : World) :
    ∃ l : List Call, l ≠ [] ∧ (∀ x ∈ l, x.ofTemplate = true) ∧
      (InitPipelineFile env b n w).2.log = w.log ++ l := by
  rcases hm : env.Marshal (InitPipelineFile.document n) with e | file
  · refine ⟨[.Marshal (InitPipelineFile.document n)], by simp, ?_,
      by simp [InitPipelineFile_marshal_failed hm, atMkdir, World.record]⟩
    intro x hx
    simp at hx
    subst hx
    rfl
  · rcases hd : env.MkdirAll (atMkdir n w) ".buildkite" 0o755 with _ | e
    · have hall : ∀ x ∈ [Call.Marshal (InitPipelineFile.document n),
          Call.MkdirAll ".buildkite" 0o755,
          Call.Println "reminder: create a PR with the template.yaml to the repository!",
          Call.WriteFile ".buildkite/template.yaml" file 0o755], x.ofTemplate = true := by
        intro x hx
        simp at hx
        rcases hx with rfl | rfl | rfl | rfl <;> rfl
      rcases hw : env.WriteFile (atWrite n w) ".buildkite/template.yaml" file 0o755
        with _ | ⟨e, left⟩
      · exact ⟨_, by simp, hall, by
          simp [InitPipelineFile_write_done hm hd hw, atMkdir, atWrite, World.record,
            World.writeFile]⟩
      · exact ⟨_, by simp, hall, by
          simp [InitPipelineFile_write_failed hm hd hw, atMkdir, atWrite, World.record,
            World.writeFile]⟩
    · refine ⟨[.Marshal (InitPipelineFile.document n), .MkdirAll ".buildkite" 0o755],
        by simp, ?_, by simp [InitPipelineFile_mkdir_failed hm hd, atMkdir, World.record]⟩
      intro x hx
      simp at hx
      rcases hx with rfl | rfl <;> rfl

theorem Ret.ofError_ne_errorf (a : Option LibError) (m : String) :
    Ret.ofError a ≠ .err (.errorf m) := by
  cases a <;> simp [Ret.ofError]

theorem CreatePipeline_ne_errorf (env : Env) (b : Client) (n : String) (w : World)
    (m : String) : (CreatePipeline env b n w).1 ≠ .err (.errorf m) := by
  rcases h : env.PipelinesCreate w b.buildkite org (CreatePipeline.pl n) with _ | e
  · rw [CreatePipeline_create_done h]
    exact Ret.ofError_ne_errorf _ m
  · rw [CreatePipeline_create_failed h]
    simp

theorem CreateBranchProtections_ne_errorf (env : Env) (b : Client) (n : String) (w : World)
    (m : String) : (CreateBranchProtections env b n w).1 ≠ .err (.errorf m) := by
  rcases h : env.GetBranchProtection w b.github gitOrg n "master" with e | p
  · rw [CreateBranchProtections_fetch_failed h]
    simp
  · rcases hp : p.RequiredStatusChecks with _ | checks
    · rw [CreateBranchProtections_no_section h hp]
      simp
    · rw [CreateBranchProtections_section h hp]
      exact Ret.ofError_ne_errorf _ m

theorem InitPipelineFile_ne_errorf (env : Env) (b : Client) (n : String) (w : World)
    (m : String) : (InitPipelineFile env b n w).1 ≠ .err (.errorf m) := by
  rcases hm : env.Marshal (InitPipelineFile.document n) with e | file
  · rw [InitPipelineFile_marshal_failed hm]
    simp
  · rcases hd : env.MkdirAll (atMkdir n w) ".buildkite" 0o755 with _ | e
    · rcases hw : env.WriteFile (atWrite n w) ".buildkite/template.yaml" file 0o755
        with _ | ⟨e, left⟩
      · rw [InitPipelineFile_write_done hm hd hw]
        simp
      · rw [InitPipelineFile_write_failed hm hd hw]
        simp
    · rw [InitPipelineFile_mkdir_failed hm hd]
      simp

theorem New_error_external (env : Env) (c : cli.Context) (w w1 : World) (e : GoError)
    (h : New env c w = (.error e, w1)) : ∃ le : LibError, e = .external le := by
  unfold New at h
  split at h
  · simp only [Prod.mk.injEq, Except.error.injEq] at h
    exact ⟨_, h.1.symm⟩
  · simp at h

/-- How `createAction` runs once the name is present and the clients are built. -/
theorem createAction_after_New {env : Env} {c : cli.Context} {w w0 : World} {client : Client}
    (hname : c.ArgsGet 0 ≠ "") (hnew : New env c w = (.ok client, w0)) :
    createAction env c w =
      if (CreatePipeline env client (c.ArgsGet 0) w0).1 ≠ .nil then
        CreatePipeline env client (c.ArgsGet 0) w0
      else if (CreateBranchProtections env client (c.ArgsGet 0)
          (CreatePipeline env client (c.ArgsGet 0) w0).2).1 ≠ .nil then
        CreateBranchProtections env client (c.ArgsGet 0)
          (CreatePipeline env client (c.ArgsGet 0) w0).2
      else
        InitPipelineFile env client (c.ArgsGet 0)
          (CreateBranchProtections env client (c.ArgsGet 0)
            (CreatePipeline env client (c.ArgsGet 0) w0).2).2 := by
  unfold createAction
  simp only [hname, if_false, hnew]
  rcases h1 : CreatePipeline env client (c.ArgsGet 0) w0 with ⟨r1, w1⟩
  cases r1 with
  | nil =>
    simp only [ne_eq, not_true_eq_false, if_false]
    rcases h2 : CreateBranchProtections env client (c.ArgsGet 0) w1 with ⟨r2, w2⟩
    cases r2 <;> simp
  | err e => simp
  | panic msg => simp

/-! ## Witnesses and evaluations for the branch-protection step -/

/-- C2 at the input of the specification: contexts ["ci/lint", "ci/test"] and
project "foo" give ["ci/lint", "ci/test", "buildkite/foo"]. -/
theorem CreateBranchProtections_appends_context_witness :
    (CreateBranchProtections (sampleEnv (.ok (protectionWith ["ci/lint", "ci/test"])))
        sampleClient "foo" World.empty).2.log =
      World.empty.log ++ [Call.GetBranchProtection "TriggerMail" "foo" "master",
        Call.UpdateBranchProtection "TriggerMail" "foo" "master"
          { RequiredStatusChecks := some
              { Strict := false
                Contexts := ["ci/lint", "ci/test", "buildkite/foo"] } }] :=
  CreateBranchProtections_appends_context (sampleEnv (.ok (protectionWith ["ci/lint", "ci/test"])))
    sampleClient "foo" World.empty (protectionWith ["ci/lint", "ci/test"])
    { Strict := false, Contexts := ["ci/lint", "ci/test"] } rfl rfl

/-- C3 at a concrete input: the fetch for project "foo" answers "404 Branch not
protected". -/
theorem CreateBranchProtections_fetch_failure_witness :
    (CreateBranchProtections (sampleEnv (.error { msg := "404 Branch not protected" }))
        sampleClient "foo" World.empty).2.log =
        World.empty.log ++ [Call.GetBranchProtection "TriggerMail" "foo" "master"] ∧
      (∀ call ∈ (CreateBranchProtections (sampleEnv (.error { msg := "404 Branch not protected" }))
          sampleClient "foo" World.empty).2.log,
        call.isUpdate = true → call ∈ World.empty.log) ∧
      ∃ err, (CreateBranchProtections (sampleEnv (.error { msg := "404 Branch not protected" }))
          sampleClient "foo" World.empty).1 = .err err ∧
        err.Unwrap = some (.external { msg := "404 Branch not protected" }) ∧
        err.Error = "could not retrieve branch protection" ++
          (" from github: " ++ (LibError.mk "404 Branch not protected").msg) :=
  CreateBranchProtections_fetch_failure (sampleEnv (.error { msg := "404 Branch not protected" }))
    sampleClient "foo" World.empty { msg := "404 Branch not protected" } rfl

/-- C8, the code at a failing input: the fetched contexts ["ci/lint",
"buildkite/foo"] hold no duplicate, and for project "foo" the update carries
["ci/lint", "buildkite/foo", "buildkite/foo"], which holds one. -/
theorem CreateBranchProtections_duplicates_context :
    ["ci/lint", "buildkite/foo"].Nodup ∧
      (CreateBranchProtections (sampleEnv (.ok (protectionWith ["ci/lint", "buildkite/foo"])))
          sampleClient "foo" World.empty).2.log =
        [Call.GetBranchProtection "TriggerMail" "foo" "master",
          Call.UpdateBranchProtection "TriggerMail" "foo" "master"
            { RequiredStatusChecks := some
                { Strict := false
                  Contexts := ["ci/lint", "buildkite/foo", "buildkite/foo"] } }] ∧
      ¬ ["ci/lint", "buildkite/foo", "buildkite/foo"].Nodup := by
  refine ⟨by decide, rfl, by decide⟩

/-- C10, the code at a failing input: the fetch succeeds with a record that has
no required-status-checks section; reading its contexts panics and no update
call is made. -/
theorem CreateBranchProtections_nil_section_panics :
    (CreateBranchProtections (sampleEnv (.ok { RequiredStatusChecks := none }))
        sampleClient "foo" World.empty).1 =
        .panic "runtime error: invalid memory address or nil pointer dereference" ∧
      (CreateBranchProtections (sampleEnv (.ok { RequiredStatusChecks := none }))
        sampleClient "foo" World.empty).2.log =
        [Call.GetBranchProtection "TriggerMail" "foo" "master"] := by
  exact ⟨rfl, rfl⟩

/-! ## The orchestrator -/

/-- C1, as amended.  For every command line whose project name n is not empty
and for which client construction succeeds, createAction runs CreatePipeline(n),
then CreateBranchProtections(n), then InitPipelineFile(n): the calls it adds to
the log are those of the pipeline step, followed by those of the protection
step exactly when the pipeline step returned nil, followed by those of the
template step exactly when both earlier steps returned nil; and its result and
final world are those of the first step that did not return nil, or of
InitPipelineFile when both earlier steps returned nil. -/
theorem createAction_steps_in_order (env : Env) (c : cli.Context) (w w0 : World)
    (client : Client) (hname : c.ArgsGet 0 ≠ "") (hnew : New env c w = (.ok client, w0)) :
    (createAction env c w =
      if (CreatePipeline env client (c.ArgsGet 0) w0).1 ≠ .nil then
        CreatePipeline env client (c.ArgsGet 0) w0
      else if (CreateBranchProtections env client (c.ArgsGet 0)
          (CreatePipeline env client (c.ArgsGet 0) w0).2).1 ≠ .nil then
        CreateBranchProtections env client (c.ArgsGet 0)
          (CreatePipeline env client (c.ArgsGet 0) w0).2
      else
        InitPipelineFile env client (c.ArgsGet 0)
          (CreateBranchProtections env client (c.ArgsGet 0)
            (CreatePipeline env client (c.ArgsGet 0) w0).2).2) ∧
    ∃ l1 l2 l3 : List Call,
      (createAction env c w).2.log = w0.log ++ (l1 ++ l2 ++ l3) ∧
      (∀ x ∈ l1, x.ofPipeline = true) ∧
      (∀ x ∈ l2, x.ofProtection = true) ∧
      (∀ x ∈ l3, x.ofTemplate = true) ∧
      l1 ≠ [] ∧
      (l2 ≠ [] ↔ (CreatePipeline env client (c.ArgsGet 0) w0).1 = .nil) ∧
      (l3 ≠ [] ↔ (CreatePipeline env client (c.ArgsGet 0) w0).1 = .nil ∧
        (CreateBranchProtections env client (c.ArgsGet 0)
          (CreatePipeline env client (c.ArgsGet 0) w0).2).1 = .nil) := by
  refine ⟨createAction_after_New hname hnew, ?_⟩
  rw [createAction_after_New hname hnew]
  obtain ⟨l1, hl1, hk1, hlog1⟩ := CreatePipeline_calls env client (c.ArgsGet 0) w0
  obtain ⟨l2, hl2, hk2, hlog2⟩ := CreateBranchProtections_calls env client (c.ArgsGet 0)
    (CreatePipeline env client (c.ArgsGet 0) w0).2
  obtain ⟨l3, hl3, hk3, hlog3⟩ := InitPipelineFile_calls env client (c.ArgsGet 0)
    (CreateBranchProtections env client (c.ArgsGet 0)
      (CreatePipeline env client (c.ArgsGet 0) w0).2).2
  by_cases h1 : (CreatePipeline env client (c.ArgsGet 0) w0).1 = .nil
  · by_cases h2 : (CreateBranchProtections env client (c.ArgsGet 0)
        (CreatePipeline env client (c.ArgsGet 0) w0).2).1 = .nil
    · refine ⟨l1, l2, l3, ?_, hk1, hk2, hk3, hl1, ?_, ?_⟩
      · simp only [h1, h2, ne_eq, not_true_eq_false, if_false]
        rw [hlog3, hlog2, hlog1]
        simp
      · simp [hl2, h1]
      · simp [hl3, h1, h2]
    · refine ⟨l1, l2, [], ?_, hk1, hk2, by simp, hl1, ?_, ?_⟩
      · simp only [h1, h2, ne_eq, not_true_eq_false, not_false_eq_true, if_false, if_true]
        rw [hlog2, hlog1]
        simp
      · simp [hl2, h1]
      · simp [h2]
  · refine ⟨l1, [], [], ?_, hk1, by simp, by simp, hl1, ?_, ?_⟩
    · simp only [h1, ne_eq, not_false_eq_true, if_true]
      rw [hlog1]
      simp
    · simp [h1]
    · simp [h1]

/-- C1 counterexample.  With collaborators under which each of the three steps
returns nil in every world: (a) a command line without project name makes
createAction return an error without attempting CreatePipeline, no call being
logged; (b) a command line with project name "foo" and an empty Buildkite token
makes createAction return the error of client construction, the only call logged
being the token check.  In both runs no step failed, no step was attempted and
the result is not success. -/
theorem createAction_guards_precede_steps :
    (∀ b n w, (CreatePipeline (sampleEnv (.ok (protectionWith []))) b n w).1 = .nil ∧
      (CreateBranchProtections (sampleEnv (.ok (protectionWith []))) b n w).1 = .nil ∧
      (InitPipelineFile (sampleEnv (.ok (protectionWith []))) b n w).1 = .nil) ∧
    ((createAction (sampleEnv (.ok (protectionWith []))) (sampleContext [] "bk-token" "gh-token")
        World.empty).1 = .err (.errorf "could not find project name") ∧
      (createAction (sampleEnv (.ok (protectionWith []))) (sampleContext [] "bk-token" "gh-token")
        World.empty).2.log = []) ∧
    ((createAction (sampleEnv (.ok (protectionWith []))) (sampleContext ["foo"] "" "gh-token")
        World.empty).1 = .err (.external { msg := "Invalid token, empty string supplied" }) ∧
      (createAction (sampleEnv (.ok (protectionWith []))) (sampleContext ["foo"] "" "gh-token")
        World.empty).2.log = [Call.NewTokenConfig "" false]) := by
  refine ⟨fun b n w => ⟨rfl, rfl, rfl⟩, ⟨rfl, rfl⟩, ⟨rfl, rfl⟩⟩

/-- C1 as amended, at a concrete input: project "foo", both tokens present,
every collaborator accepting. -/
theorem createAction_steps_in_order_witness :
    (sampleContext ["foo"] "bk-token" "gh-token").ArgsGet 0 ≠ "" ∧
    New (sampleEnv (.ok (protectionWith ["ci/lint"])))
        (sampleContext ["foo"] "bk-token" "gh-token") World.empty =
      (.ok sampleClient, (New (sampleEnv (.ok (protectionWith ["ci/lint"])))
        (sampleContext ["foo"] "bk-token" "gh-token") World.empty).2) ∧
    (createAction (sampleEnv (.ok (protectionWith ["ci/lint"])))
        (sampleContext ["foo"] "bk-token" "gh-token") World.empty).1 = .nil ∧
    (createAction (sampleEnv (.ok (protectionWith ["ci/lint"])))
        (sampleContext ["foo"] "bk-token" "gh-token") World.empty).2.log.length = 12 ∧
    ∃ l1 l2 l3 : List Call,
      (createAction (sampleEnv (.ok (protectionWith ["ci/lint"])))
          (sampleContext ["foo"] "bk-token" "gh-token") World.empty).2.log =
        (New (sampleEnv (.ok (protectionWith ["ci/lint"])))
          (sampleContext ["foo"] "bk-token" "gh-token") World.empty).2.log ++ (l1 ++ l2 ++ l3) ∧
      (∀ x ∈ l1, x.ofPipeline = true) ∧
      (∀ x ∈ l2, x.ofProtection = true) ∧
      (∀ x ∈ l3, x.ofTemplate = true) ∧
      l1 ≠ [] ∧
      (l2 ≠ [] ↔ (CreatePipeline (sampleEnv (.ok (protectionWith ["ci/lint"]))) sampleClient
          ((sampleContext ["foo"] "bk-token" "gh-token").ArgsGet 0)
          (New (sampleEnv (.ok (protectionWith ["ci/lint"])))
            (sampleContext ["foo"] "bk-token" "gh-token") World.empty).2).1 = .nil) ∧
      (l3 ≠ [] ↔ (CreatePipeline (sampleEnv (.ok (protectionWith ["ci/lint"]))) sampleClient
          ((sampleContext ["foo"] "bk-token" "gh-token").ArgsGet 0)
          (New (sampleEnv (.ok (protectionWith ["ci/lint"])))
            (sampleContext ["foo"] "bk-token" "gh-token") World.empty).2).1 = .nil ∧
        (CreateBranchProtections (sampleEnv (.ok (protectionWith ["ci/lint"]))) sampleClient
          ((sampleContext ["foo"] "bk-token" "gh-token").ArgsGet 0)
          (CreatePipeline (sampleEnv (.ok (protectionWith ["ci/lint"]))) sampleClient
            ((sampleContext ["foo"] "bk-token" "gh-token").ArgsGet 0)
            (New (sampleEnv (.ok (protectionWith ["ci/lint"])))
              (sampleContext ["foo"] "bk-token" "gh-token") World.empty).2).2).1 = .nil) :=
  ⟨by decide, rfl, rfl, rfl,
    (createAction_steps_in_order (sampleEnv (.ok (protectionWith ["ci/lint"])))
      (sampleContext ["foo"] "bk-token" "gh-token") World.empty
      (New (sampleEnv (.ok (protectionWith ["ci/lint"])))
        (sampleContext ["foo"] "bk-token" "gh-token") World.empty).2
      sampleClient (by decide) rfl).2⟩

/-- C4.  When the first positional argument is absent or is the empty string,
createAction returns the error "could not find project name" and leaves the
world as it found it: no call is logged (no client construction, no remote
call) and no file is changed.  When the first positional argument is a
non-empty name, the value returned is never that error. -/
theorem createAction_missing_name (env : Env) (c : cli.Context) (w : World) :
    ((c.args = [] ∨ ∃ rest, c.args = "" :: rest) →
      createAction env c w = (.err (.errorf "could not find project name"), w)) ∧
    (∀ n rest, c.args = n :: rest → n ≠ "" →
      (createAction env c w).1 ≠ .err (.errorf "could not find project name")) := by
  constructor
  · intro h
    have hname : c.ArgsGet 0 = "" := by
      rcases h with h | ⟨rest, h⟩ <;> simp [cli.Context.ArgsGet, h]
    simp [createAction, hname]
  · intro n rest hargs hn
    have hname : c.ArgsGet 0 ≠ "" := by
      simpa [cli.Context.ArgsGet, hargs] using hn
    rcases hN : New env c w with ⟨r, w1⟩
    cases r with
    | error e =>
      obtain ⟨le, rfl⟩ := New_error_external env c w w1 e hN
      simp [createAction, hname, hN]
    | ok client =>
      rw [createAction_after_New hname hN]
      split_ifs
      · exact CreatePipeline_ne_errorf _ _ _ _ _
      · exact CreateBranchProtections_ne_errorf _ _ _ _ _
      · exact InitPipelineFile_ne_errorf _ _ _ _ _

/-- C4 at concrete inputs: no argument, an empty argument, and the name "foo"
with the branch-protection fetch refused. -/
theorem createAction_missing_name_witness :
    (createAction (sampleEnv (.ok (protectionWith []))) (sampleContext [] "bk-token" "gh-token")
        World.empty = (.err (.errorf "could not find project name"), World.empty)) ∧
    (createAction (sampleEnv (.ok (protectionWith []))) (sampleContext [""] "bk-token" "gh-token")
        World.empty = (.err (.errorf "could not find project name"), World.empty)) ∧
    (createAction (sampleEnv (.error { msg := "404 Branch not protected" }))
        (sampleContext ["foo"] "bk-token" "gh-token") World.empty).1
      ≠ .err (.errorf "could not find project name") :=
  ⟨(createAction_missing_name (sampleEnv (.ok (protectionWith [])))
      (sampleContext [] "bk-token" "gh-token") World.empty).1 (Or.inl rfl),
   (createAction_missing_name (sampleEnv (.ok (protectionWith [])))
      (sampleContext [""] "bk-token" "gh-token") World.empty).1 (Or.inr ⟨[], rfl⟩),
   (createAction_missing_name (sampleEnv (.error { msg := "404 Branch not protected" }))
      (sampleContext ["foo"] "bk-token" "gh-token") World.empty).2 "foo" [] rfl (by decide)⟩

/-! ## Writing the template twice -/

theorem InitPipelineFile_nil_leaves_render {env : Env} {b : Client} {n : String} {w : World}
    (h : (InitPipelineFile env b n w).1 = .nil) :
    ∃ data, env.Marshal (InitPipelineFile.document n) = .ok data ∧
      (InitPipelineFile env b n w).2.files ".buildkite/template.yaml" = some data := by
  rcases hm : env.Marshal (InitPipelineFile.document n) with e | file
  · rw [InitPipelineFile_marshal_failed hm] at h
    simp at h
  · rcases hd : env.MkdirAll (atMkdir n w) ".buildkite" 0o755 with _ | e
    · rcases hw : env.WriteFile (atWrite n w) ".buildkite/template.yaml" file 0o755
        with _ | ⟨e, left⟩
      · refine ⟨file, rfl, ?_⟩
        rw [InitPipelineFile_write_done hm hd hw]
        simp [World.writeFile]
      · rw [InitPipelineFile_write_failed hm hd hw] at h
        simp at h
    · rw [InitPipelineFile_mkdir_failed hm hd] at h
      simp at h

/-- C9.  For every project name n and every prior world, when two consecutive
runs of InitPipelineFile(n) both succeed, the file ".buildkite/template.yaml"
holds after the second run exactly what it held after the first: the bytes of
one encoding of the document of n, whatever the file held before. -/
theorem InitPipelineFile_twice (env : Env) (b : Client) (n : String) (w : World)
    (h1 : (InitPipelineFile env b n w).1 = .nil)
    (h2 : (InitPipelineFile env b n (InitPipelineFile env b n w).2).1 = .nil) :
    ∃ data, env.Marshal (InitPipelineFile.document n) = .ok data ∧
      (InitPipelineFile env b n w).2.files ".buildkite/template.yaml" = some data ∧
      (InitPipelineFile env b n (InitPipelineFile env b n w).2).2.files
        ".buildkite/template.yaml" = some data := by
  obtain ⟨d1, hm1, hf1⟩ := InitPipelineFile_nil_leaves_render h1
  obtain ⟨d2, hm2, hf2⟩ := InitPipelineFile_nil_leaves_render h2
  have hd : d2 = d1 := by
    rw [hm1] at hm2
    exact (Except.ok.inj hm2).symm
  exact ⟨d1, hm1, hf1, hd ▸ hf2⟩

/-- C9 at a concrete input: the template file holds stale bytes before the first
run for project "foo". -/
theorem InitPipelineFile_twice_witness :
    (InitPipelineFile (sampleEnv (.ok (protectionWith []))) sampleClient "foo" staleWorld).1
      = .nil ∧
    (InitPipelineFile (sampleEnv (.ok (protectionWith []))) sampleClient "foo"
      (InitPipelineFile (sampleEnv (.ok (protectionWith []))) sampleClient "foo"
        staleWorld).2).1 = .nil ∧
    ∃ data, (sampleEnv (.ok (protectionWith []))).Marshal (InitPipelineFile.document "foo")
        = .ok data ∧
      (InitPipelineFile (sampleEnv (.ok (protectionWith []))) sampleClient "foo"
        staleWorld).2.files ".buildkite/template.yaml" = some data ∧
      (InitPipelineFile (sampleEnv (.ok (protectionWith []))) sampleClient "foo"
        (InitPipelineFile (sampleEnv (.ok (protectionWith []))) sampleClient "foo"
          staleWorld).2).2.files ".buildkite/template.yaml" = some data :=
  ⟨rfl, rfl, InitPipelineFile_twice (sampleEnv (.ok (protectionWith []))) sampleClient "foo"
    staleWorld rfl rfl⟩


end BuildkiteGenerator
